import Mathlib

set_option maxHeartbeats 1600000

/-!
Shallow embedding of `src/src/igl/vulkan/VulkanFeatures.cpp` (namespace
`igl::vulkan`): the Vulkan capability-descriptor chain and feature
negotiation engine.  Machine integers (`uint32_t version_`) are modelled
as `Nat` (the code only compares them for equality and order, never
overflows them), `VkBool32` fields as `Bool` (`VK_TRUE ↦ true`,
`VK_FALSE ↦ false`), the `pNext` pointers of the feature structs as
`Option Block` references into the owning `VulkanFeatures` object, and
the `std::vector<VkExtensionProperties> extensions_` as a list of
extension-name strings.
-/

/-- The capability descriptor blocks owned by a `VulkanFeatures` object,
one per `VkPhysicalDevice...Features...` member struct of the C++ class
(the root `VkPhysicalDeviceFeatures2_` is kept separately as the chain
root). -/
inductive Block where
  | samplerYcbcr
  | shaderDrawParameters
  | multiview
  | bufferDeviceAddress
  | descriptorIndexing
  | storage16Bit
  | shaderFloat16Int8
  | indexTypeUint8
  | synchronization2
  | timelineSemaphore
  deriving DecidableEq, Repr, Fintype

/-- Modelled from the spec: `igl::vulkan::VulkanContextConfig` is declared
outside the excerpted sources; §6 of the spec lists its boolean toggles
(enable-buffer-device-address, enable-descriptor-indexing,
enable-shader-int16, enable-16bit-storage-access, enable-draw-parameters,
enable-dual-source-blend), which are exactly the `config_` members the
excerpted code reads. -/
structure VulkanContextConfig where
  enableBufferDeviceAddress : Bool
  enableDescriptorIndexing : Bool
  enableDualSrcBlend : Bool
  enableShaderInt16 : Bool
  enableStorageBuffer16BitAccess : Bool
  enableShaderDrawParameters : Bool
  deriving DecidableEq, Repr

/-- The members of `VkPhysicalDeviceFeatures` that the excerpted code
reads or writes (the remaining members of the Vulkan core feature struct
are never touched by this translation unit; `.features = {}`
zero-initializes them all). -/
structure VkPhysicalDeviceFeatures where
  dualSrcBlend : Bool
  shaderInt16 : Bool
  multiDrawIndirect : Bool
  drawIndirectFirstInstance : Bool
  depthBiasClamp : Bool
  fillModeNonSolid : Bool
  deriving DecidableEq, Repr

/-- Chain root: `VkPhysicalDeviceFeatures2` (`sType` tags are constants
and are not modelled). -/
structure VkPhysicalDeviceFeatures2 where
  pNext : Option Block
  features : VkPhysicalDeviceFeatures
  deriving DecidableEq, Repr

structure VkPhysicalDeviceSamplerYcbcrConversionFeatures where
  pNext : Option Block
  samplerYcbcrConversion : Bool
  deriving DecidableEq, Repr

structure VkPhysicalDeviceShaderDrawParametersFeatures where
  pNext : Option Block
  shaderDrawParameters : Bool
  deriving DecidableEq, Repr

structure VkPhysicalDeviceMultiviewFeatures where
  pNext : Option Block
  multiview : Bool
  multiviewGeometryShader : Bool
  multiviewTessellationShader : Bool
  deriving DecidableEq, Repr

structure VkPhysicalDeviceBufferDeviceAddressFeaturesKHR where
  pNext : Option Block
  bufferDeviceAddress : Bool
  bufferDeviceAddressCaptureReplay : Bool
  bufferDeviceAddressMultiDevice : Bool
  deriving DecidableEq, Repr

structure VkPhysicalDeviceDescriptorIndexingFeaturesEXT where
  pNext : Option Block
  shaderInputAttachmentArrayDynamicIndexing : Bool
  shaderUniformTexelBufferArrayDynamicIndexing : Bool
  shaderStorageTexelBufferArrayDynamicIndexing : Bool
  shaderUniformBufferArrayNonUniformIndexing : Bool
  shaderSampledImageArrayNonUniformIndexing : Bool
  shaderStorageBufferArrayNonUniformIndexing : Bool
  shaderStorageImageArrayNonUniformIndexing : Bool
  shaderInputAttachmentArrayNonUniformIndexing : Bool
  shaderUniformTexelBufferArrayNonUniformIndexing : Bool
  shaderStorageTexelBufferArrayNonUniformIndexing : Bool
  descriptorBindingUniformBufferUpdateAfterBind : Bool
  descriptorBindingSampledImageUpdateAfterBind : Bool
  descriptorBindingStorageImageUpdateAfterBind : Bool
  descriptorBindingStorageBufferUpdateAfterBind : Bool
  descriptorBindingUniformTexelBufferUpdateAfterBind : Bool
  descriptorBindingStorageTexelBufferUpdateAfterBind : Bool
  descriptorBindingUpdateUnusedWhilePending : Bool
  descriptorBindingPartiallyBound : Bool
  descriptorBindingVariableDescriptorCount : Bool
  runtimeDescriptorArray : Bool
  deriving DecidableEq, Repr

structure VkPhysicalDevice16BitStorageFeatures where
  pNext : Option Block
  storageBuffer16BitAccess : Bool
  uniformAndStorageBuffer16BitAccess : Bool
  storagePushConstant16 : Bool
  storageInputOutput16 : Bool
  deriving DecidableEq, Repr

structure VkPhysicalDeviceShaderFloat16Int8Features where
  pNext : Option Block
  shaderFloat16 : Bool
  shaderInt8 : Bool
  deriving DecidableEq, Repr

structure VkPhysicalDeviceIndexTypeUint8Features where
  pNext : Option Block
  indexTypeUint8 : Bool
  deriving DecidableEq, Repr

structure VkPhysicalDeviceSynchronization2Features where
  pNext : Option Block
  synchronization2 : Bool
  deriving DecidableEq, Repr

structure VkPhysicalDeviceTimelineSemaphoreFeatures where
  pNext : Option Block
  timelineSemaphore : Bool
  deriving DecidableEq, Repr

/-- The state of an `igl::vulkan::VulkanFeatures` object: the member
structs, the configuration, the API version and the extension catalog. -/
structure VulkanFeatures where
  VkPhysicalDeviceFeatures2_ : VkPhysicalDeviceFeatures2
  VkPhysicalDeviceSamplerYcbcrConversionFeatures_ : VkPhysicalDeviceSamplerYcbcrConversionFeatures
  VkPhysicalDeviceShaderDrawParametersFeatures_ : VkPhysicalDeviceShaderDrawParametersFeatures
  VkPhysicalDeviceMultiviewFeatures_ : VkPhysicalDeviceMultiviewFeatures
  VkPhysicalDeviceBufferDeviceAddressFeaturesKHR_ : VkPhysicalDeviceBufferDeviceAddressFeaturesKHR
  VkPhysicalDeviceDescriptorIndexingFeaturesEXT_ : VkPhysicalDeviceDescriptorIndexingFeaturesEXT
  VkPhysicalDevice16BitStorageFeatures_ : VkPhysicalDevice16BitStorageFeatures
  VkPhysicalDeviceShaderFloat16Int8Features_ : VkPhysicalDeviceShaderFloat16Int8Features
  VkPhysicalDeviceIndexTypeUint8Features_ : VkPhysicalDeviceIndexTypeUint8Features
  VkPhysicalDeviceSynchronization2Features_ : VkPhysicalDeviceSynchronization2Features
  VkPhysicalDeviceTimelineSemaphoreFeatures_ : VkPhysicalDeviceTimelineSemaphoreFeatures
  config_ : VulkanContextConfig
  version_ : Nat
  extensions_ : List String
  deriving DecidableEq, Repr

/-- `VK_API_VERSION_1_2 = VK_MAKE_API_VERSION(0, 1, 2, 0)
  = (1 <<< 22) + (2 <<< 12)` (Vulkan headers). -/
def vkApiVersion12 : Nat := 4202496

/-- `VK_EXT_INDEX_TYPE_UINT8_EXTENSION_NAME` (Vulkan headers). -/
def extIndexTypeUint8Name : String := "VK_EXT_index_type_uint8"

/-- `VK_KHR_SYNCHRONIZATION_2_EXTENSION_NAME` (Vulkan headers). -/
def extSynchronization2Name : String := "VK_KHR_synchronization2"

/-- `VK_KHR_TIMELINE_SEMAPHORE_EXTENSION_NAME` (Vulkan headers). -/
def extTimelineSemaphoreName : String := "VK_KHR_timeline_semaphore"

/-- `VulkanFeatures::hasExtension`: linear scan of the extension catalog
with `strcmp`-equality (exact, case-sensitive string match). -/
def hasExtension (exts : List String) (ext : String) : Bool :=
  exts.any (fun props => ext = props)

/-- Read a block's `pNext` member. -/
def getNext (vf : VulkanFeatures) : Block → Option Block
  | .samplerYcbcr => vf.VkPhysicalDeviceSamplerYcbcrConversionFeatures_.pNext
  | .shaderDrawParameters => vf.VkPhysicalDeviceShaderDrawParametersFeatures_.pNext
  | .multiview => vf.VkPhysicalDeviceMultiviewFeatures_.pNext
  | .bufferDeviceAddress => vf.VkPhysicalDeviceBufferDeviceAddressFeaturesKHR_.pNext
  | .descriptorIndexing => vf.VkPhysicalDeviceDescriptorIndexingFeaturesEXT_.pNext
  | .storage16Bit => vf.VkPhysicalDevice16BitStorageFeatures_.pNext
  | .shaderFloat16Int8 => vf.VkPhysicalDeviceShaderFloat16Int8Features_.pNext
  | .indexTypeUint8 => vf.VkPhysicalDeviceIndexTypeUint8Features_.pNext
  | .synchronization2 => vf.VkPhysicalDeviceSynchronization2Features_.pNext
  | .timelineSemaphore => vf.VkPhysicalDeviceTimelineSemaphoreFeatures_.pNext

/-- Write a block's `pNext` member. -/
def setNext (vf : VulkanFeatures) : Block → Option Block → VulkanFeatures
  | .samplerYcbcr, n =>
    { vf with VkPhysicalDeviceSamplerYcbcrConversionFeatures_ :=
        { vf.VkPhysicalDeviceSamplerYcbcrConversionFeatures_ with pNext := n } }
  | .shaderDrawParameters, n =>
    { vf with VkPhysicalDeviceShaderDrawParametersFeatures_ :=
        { vf.VkPhysicalDeviceShaderDrawParametersFeatures_ with pNext := n } }
  | .multiview, n =>
    { vf with VkPhysicalDeviceMultiviewFeatures_ :=
        { vf.VkPhysicalDeviceMultiviewFeatures_ with pNext := n } }
  | .bufferDeviceAddress, n =>
    { vf with VkPhysicalDeviceBufferDeviceAddressFeaturesKHR_ :=
        { vf.VkPhysicalDeviceBufferDeviceAddressFeaturesKHR_ with pNext := n } }
  | .descriptorIndexing, n =>
    { vf with VkPhysicalDeviceDescriptorIndexingFeaturesEXT_ :=
        { vf.VkPhysicalDeviceDescriptorIndexingFeaturesEXT_ with pNext := n } }
  | .storage16Bit, n =>
    { vf with VkPhysicalDevice16BitStorageFeatures_ :=
        { vf.VkPhysicalDevice16BitStorageFeatures_ with pNext := n } }
  | .shaderFloat16Int8, n =>
    { vf with VkPhysicalDeviceShaderFloat16Int8Features_ :=
        { vf.VkPhysicalDeviceShaderFloat16Int8Features_ with pNext := n } }
  | .indexTypeUint8, n =>
    { vf with VkPhysicalDeviceIndexTypeUint8Features_ :=
        { vf.VkPhysicalDeviceIndexTypeUint8Features_ with pNext := n } }
  | .synchronization2, n =>
    { vf with VkPhysicalDeviceSynchronization2Features_ :=
        { vf.VkPhysicalDeviceSynchronization2Features_ with pNext := n } }
  | .timelineSemaphore, n =>
    { vf with VkPhysicalDeviceTimelineSemaphoreFeatures_ :=
        { vf.VkPhysicalDeviceTimelineSemaphoreFeatures_ with pNext := n } }

/-- Walk from `cur` to the end of the chain and hang `nb` there.  The
fuel bound (10 = number of blocks) is never reached on the acyclic
chains the assembler builds. -/
def addNextAux (vf : VulkanFeatures) (nb : Block) : Block → Nat → VulkanFeatures
  | _, 0 => vf
  | cur, fuel + 1 =>
    match getNext vf cur with
    | none => setNext vf cur (some nb)
    | some c => addNextAux vf nb c fuel

/-- Modelled from the spec: `ivkAddNext` is declared in a header outside
the excerpted sources; per spec §3/§4.1 the chain is an "ordered
singly-linked traversal" whose "order is insertion order", so adding a
block appends it at the current end of the chain rooted at
`VkPhysicalDeviceFeatures2_`. -/
def ivkAddNext (vf : VulkanFeatures) (nb : Block) : VulkanFeatures :=
  match vf.VkPhysicalDeviceFeatures2_.pNext with
  | none =>
    { vf with VkPhysicalDeviceFeatures2_ :=
        { vf.VkPhysicalDeviceFeatures2_ with pNext := some nb } }
  | some c => addNextAux vf nb c 10

/-- One primitive step of `VulkanFeatures::assembleFeatureChain`: clear
the root's `pNext`, clear one block's `pNext`, or `ivkAddNext` one
block. -/
inductive AOp where
  | resetRoot
  | reset (b : Block)
  | link (b : Block)
  deriving DecidableEq, Repr

/-- The exact sequence of `pNext` resets and `ivkAddNext` calls executed
by `VulkanFeatures::assembleFeatureChain`, in source order (the
`#ifdef`-guarded blocks are all compiled in for the versions this file
targets). -/
def assembleOps (version : Nat) (config : VulkanContextConfig) (exts : List String) :
    List AOp :=
  [AOp.resetRoot,
   AOp.reset .samplerYcbcr,
   AOp.reset .shaderDrawParameters,
   AOp.reset .multiview,
   AOp.reset .indexTypeUint8,
   AOp.reset .synchronization2,
   AOp.reset .timelineSemaphore,
   AOp.reset .shaderFloat16Int8,
   AOp.link .samplerYcbcr,
   AOp.link .shaderDrawParameters,
   AOp.link .multiview]
  ++ (if version ≥ vkApiVersion12 then [AOp.link .shaderFloat16Int8] else [])
  ++ [AOp.reset .bufferDeviceAddress]
  ++ (if config.enableBufferDeviceAddress then [AOp.link .bufferDeviceAddress] else [])
  ++ [AOp.reset .descriptorIndexing]
  ++ (if config.enableDescriptorIndexing then [AOp.link .descriptorIndexing] else [])
  ++ [AOp.reset .storage16Bit, AOp.link .storage16Bit]
  ++ (if hasExtension exts extIndexTypeUint8Name then [AOp.link .indexTypeUint8] else [])
  ++ (if hasExtension exts extSynchronization2Name then [AOp.link .synchronization2] else [])
  ++ (if hasExtension exts extTimelineSemaphoreName then [AOp.link .timelineSemaphore] else [])

/-- Execute one assembly step. -/
def runOp (vf : VulkanFeatures) : AOp → VulkanFeatures
  | .resetRoot =>
    { vf with VkPhysicalDeviceFeatures2_ :=
        { vf.VkPhysicalDeviceFeatures2_ with pNext := none } }
  | .reset b => setNext vf b none
  | .link b => ivkAddNext vf b

/-- Execute a sequence of assembly steps. -/
def runOps (vf : VulkanFeatures) (ops : List AOp) : VulkanFeatures :=
  ops.foldl runOp vf

/-- `VulkanFeatures::assembleFeatureChain(config)`: reset the `pNext`
links and relink the version-, configuration- and extension-gated
subset of blocks, in source order. -/
def assembleFeatureChain (vf : VulkanFeatures) (config : VulkanContextConfig) :
    VulkanFeatures :=
  runOps vf (assembleOps vf.version_ config vf.extensions_)

/-- Collect the blocks of the chain rooted at
`VkPhysicalDeviceFeatures2_`, in link order (fuel-bounded walk; the
assembled chains have at most 10 blocks). -/
def chainBlocksAux (vf : VulkanFeatures) : Option Block → Nat → List Block
  | _, 0 => []
  | none, _ => []
  | some b, fuel + 1 => b :: chainBlocksAux vf (getNext vf b) fuel

/-- The blocks reachable from the chain root, in order. -/
def chainBlocks (vf : VulkanFeatures) : List Block :=
  chainBlocksAux vf vf.VkPhysicalDeviceFeatures2_.pNext 11

/-- The `VulkanFeatures(uint32_t version, VulkanContextConfig config)`
constructor: member initializers (all feature booleans `VK_FALSE`
except `synchronization2` and `timelineSemaphore`, which are `VK_TRUE`;
every `pNext` null; empty extension catalog), followed by
`assembleFeatureChain(config_)`. -/
def VulkanFeatures.construct (version : Nat) (config : VulkanContextConfig) :
    VulkanFeatures :=
  assembleFeatureChain
    { VkPhysicalDeviceFeatures2_ :=
        { pNext := none,
          features :=
            { dualSrcBlend := false, shaderInt16 := false, multiDrawIndirect := false,
              drawIndirectFirstInstance := false, depthBiasClamp := false,
              fillModeNonSolid := false } },
      VkPhysicalDeviceSamplerYcbcrConversionFeatures_ :=
        { pNext := none, samplerYcbcrConversion := false },
      VkPhysicalDeviceShaderDrawParametersFeatures_ :=
        { pNext := none, shaderDrawParameters := false },
      VkPhysicalDeviceMultiviewFeatures_ :=
        { pNext := none, multiview := false, multiviewGeometryShader := false,
          multiviewTessellationShader := false },
      VkPhysicalDeviceBufferDeviceAddressFeaturesKHR_ :=
        { pNext := none, bufferDeviceAddress := false,
          bufferDeviceAddressCaptureReplay := false,
          bufferDeviceAddressMultiDevice := false },
      VkPhysicalDeviceDescriptorIndexingFeaturesEXT_ :=
        { pNext := none,
          shaderInputAttachmentArrayDynamicIndexing := false,
          shaderUniformTexelBufferArrayDynamicIndexing := false,
          shaderStorageTexelBufferArrayDynamicIndexing := false,
          shaderUniformBufferArrayNonUniformIndexing := false,
          shaderSampledImageArrayNonUniformIndexing := false,
          shaderStorageBufferArrayNonUniformIndexing := false,
          shaderStorageImageArrayNonUniformIndexing := false,
          shaderInputAttachmentArrayNonUniformIndexing := false,
          shaderUniformTexelBufferArrayNonUniformIndexing := false,
          shaderStorageTexelBufferArrayNonUniformIndexing := false,
          descriptorBindingUniformBufferUpdateAfterBind := false,
          descriptorBindingSampledImageUpdateAfterBind := false,
          descriptorBindingStorageImageUpdateAfterBind := false,
          descriptorBindingStorageBufferUpdateAfterBind := false,
          descriptorBindingUniformTexelBufferUpdateAfterBind := false,
          descriptorBindingStorageTexelBufferUpdateAfterBind := false,
          descriptorBindingUpdateUnusedWhilePending := false,
          descriptorBindingPartiallyBound := false,
          descriptorBindingVariableDescriptorCount := false,
          runtimeDescriptorArray := false },
      VkPhysicalDevice16BitStorageFeatures_ :=
        { pNext := none, storageBuffer16BitAccess := false,
          uniformAndStorageBuffer16BitAccess := false,
          storagePushConstant16 := false, storageInputOutput16 := false },
      VkPhysicalDeviceShaderFloat16Int8Features_ :=
        { pNext := none, shaderFloat16 := false, shaderInt8 := false },
      VkPhysicalDeviceIndexTypeUint8Features_ :=
        { pNext := none, indexTypeUint8 := false },
      VkPhysicalDeviceSynchronization2Features_ :=
        { pNext := none, synchronization2 := true },
      VkPhysicalDeviceTimelineSemaphoreFeatures_ :=
        { pNext := none, timelineSemaphore := true },
      config_ := config,
      version_ := version,
      extensions_ := [] }
    config

/-- `VulkanFeatures::operator=`: guarded by equal `version_` and equal
`enableBufferDeviceAddress` / `enableDescriptorIndexing` toggles; on
success copies every feature struct and the extension catalog (but not
`config_` or `version_`) and reassembles the chain with the
destination's own `config_`. -/
def VulkanFeatures.assign (dst src : VulkanFeatures) : VulkanFeatures :=
  if ¬(dst.version_ = src.version_) ∨
      ¬(dst.config_.enableBufferDeviceAddress = src.config_.enableBufferDeviceAddress ∧
        dst.config_.enableDescriptorIndexing = src.config_.enableDescriptorIndexing) then
    dst
  else
    assembleFeatureChain
      { dst with
        VkPhysicalDeviceFeatures2_ := src.VkPhysicalDeviceFeatures2_,
        VkPhysicalDeviceSamplerYcbcrConversionFeatures_ :=
          src.VkPhysicalDeviceSamplerYcbcrConversionFeatures_,
        VkPhysicalDeviceShaderDrawParametersFeatures_ :=
          src.VkPhysicalDeviceShaderDrawParametersFeatures_,
        VkPhysicalDeviceMultiviewFeatures_ := src.VkPhysicalDeviceMultiviewFeatures_,
        VkPhysicalDeviceBufferDeviceAddressFeaturesKHR_ :=
          src.VkPhysicalDeviceBufferDeviceAddressFeaturesKHR_,
        VkPhysicalDeviceDescriptorIndexingFeaturesEXT_ :=
          src.VkPhysicalDeviceDescriptorIndexingFeaturesEXT_,
        VkPhysicalDevice16BitStorageFeatures_ := src.VkPhysicalDevice16BitStorageFeatures_,
        VkPhysicalDeviceShaderFloat16Int8Features_ :=
          src.VkPhysicalDeviceShaderFloat16Int8Features_,
        VkPhysicalDeviceIndexTypeUint8Features_ :=
          src.VkPhysicalDeviceIndexTypeUint8Features_,
        VkPhysicalDeviceSynchronization2Features_ :=
          src.VkPhysicalDeviceSynchronization2Features_,
        VkPhysicalDeviceTimelineSemaphoreFeatures_ :=
          src.VkPhysicalDeviceTimelineSemaphoreFeatures_,
        extensions_ := src.extensions_ }
      dst.config_

/-- The 20 feature fields that `VulkanFeatures::checkSelectedFeatures`
examines, one constructor per `ENABLE_VULKAN_FEATURE` expansion, named
after the checked field. -/
inductive CheckedField where
  | dualSrcBlend
  | shaderInt16
  | multiDrawIndirect
  | drawIndirectFirstInstance
  | depthBiasClamp
  | fillModeNonSolid
  | shaderSampledImageArrayNonUniformIndexing
  | descriptorBindingUniformBufferUpdateAfterBind
  | descriptorBindingSampledImageUpdateAfterBind
  | descriptorBindingStorageImageUpdateAfterBind
  | descriptorBindingStorageBufferUpdateAfterBind
  | descriptorBindingUpdateUnusedWhilePending
  | descriptorBindingPartiallyBound
  | runtimeDescriptorArray
  | storageBuffer16BitAccess
  | bufferDeviceAddress
  | multiview
  | samplerYcbcrConversion
  | shaderDrawParameters
  | shaderFloat16
  deriving DecidableEq, Repr, Fintype

/-- The value a `VulkanFeatures` object holds for a checked field (the
same accessor is applied to the requested and to the available side). -/
def fieldValue (f : CheckedField) (vf : VulkanFeatures) : Bool :=
  match f with
  | .dualSrcBlend => vf.VkPhysicalDeviceFeatures2_.features.dualSrcBlend
  | .shaderInt16 => vf.VkPhysicalDeviceFeatures2_.features.shaderInt16
  | .multiDrawIndirect => vf.VkPhysicalDeviceFeatures2_.features.multiDrawIndirect
  | .drawIndirectFirstInstance =>
    vf.VkPhysicalDeviceFeatures2_.features.drawIndirectFirstInstance
  | .depthBiasClamp => vf.VkPhysicalDeviceFeatures2_.features.depthBiasClamp
  | .fillModeNonSolid => vf.VkPhysicalDeviceFeatures2_.features.fillModeNonSolid
  | .shaderSampledImageArrayNonUniformIndexing =>
    vf.VkPhysicalDeviceDescriptorIndexingFeaturesEXT_.shaderSampledImageArrayNonUniformIndexing
  | .descriptorBindingUniformBufferUpdateAfterBind =>
    vf.VkPhysicalDeviceDescriptorIndexingFeaturesEXT_.descriptorBindingUniformBufferUpdateAfterBind
  | .descriptorBindingSampledImageUpdateAfterBind =>
    vf.VkPhysicalDeviceDescriptorIndexingFeaturesEXT_.descriptorBindingSampledImageUpdateAfterBind
  | .descriptorBindingStorageImageUpdateAfterBind =>
    vf.VkPhysicalDeviceDescriptorIndexingFeaturesEXT_.descriptorBindingStorageImageUpdateAfterBind
  | .descriptorBindingStorageBufferUpdateAfterBind =>
    vf.VkPhysicalDeviceDescriptorIndexingFeaturesEXT_.descriptorBindingStorageBufferUpdateAfterBind
  | .descriptorBindingUpdateUnusedWhilePending =>
    vf.VkPhysicalDeviceDescriptorIndexingFeaturesEXT_.descriptorBindingUpdateUnusedWhilePending
  | .descriptorBindingPartiallyBound =>
    vf.VkPhysicalDeviceDescriptorIndexingFeaturesEXT_.descriptorBindingPartiallyBound
  | .runtimeDescriptorArray =>
    vf.VkPhysicalDeviceDescriptorIndexingFeaturesEXT_.runtimeDescriptorArray
  | .storageBuffer16BitAccess =>
    vf.VkPhysicalDevice16BitStorageFeatures_.storageBuffer16BitAccess
  | .bufferDeviceAddress =>
    vf.VkPhysicalDeviceBufferDeviceAddressFeaturesKHR_.bufferDeviceAddress
  | .multiview => vf.VkPhysicalDeviceMultiviewFeatures_.multiview
  | .samplerYcbcrConversion =>
    vf.VkPhysicalDeviceSamplerYcbcrConversionFeatures_.samplerYcbcrConversion
  | .shaderDrawParameters =>
    vf.VkPhysicalDeviceShaderDrawParametersFeatures_.shaderDrawParameters
  | .shaderFloat16 => vf.VkPhysicalDeviceShaderFloat16Int8Features_.shaderFloat16

/-- The configuration gate of a checked field: the descriptor-indexing
family is only checked under `config_.enableDescriptorIndexing`, the
buffer-device-address check only under
`config_.enableBufferDeviceAddress`; every other check is
unconditional. -/
def fieldGate (f : CheckedField) (config : VulkanContextConfig) : Bool :=
  match f with
  | .shaderSampledImageArrayNonUniformIndexing
  | .descriptorBindingUniformBufferUpdateAfterBind
  | .descriptorBindingSampledImageUpdateAfterBind
  | .descriptorBindingStorageImageUpdateAfterBind
  | .descriptorBindingStorageBufferUpdateAfterBind
  | .descriptorBindingUpdateUnusedWhilePending
  | .descriptorBindingPartiallyBound
  | .runtimeDescriptorArray => config.enableDescriptorIndexing
  | .bufferDeviceAddress => config.enableBufferDeviceAddress
  | _ => true

/-- The version-or-extension tag the macro bakes into each entry. -/
def fieldTag (f : CheckedField) : String :=
  match f with
  | .dualSrcBlend | .shaderInt16 | .multiDrawIndirect | .drawIndirectFirstInstance
  | .depthBiasClamp | .fillModeNonSolid => "1.1"
  | .shaderFloat16 => "1.2"
  | _ => "1.1 EXT"

/-- The stringized `requestedFeatureStruct` token of the macro
expansion for each checked field. -/
def fieldStructName (f : CheckedField) : String :=
  match f with
  | .dualSrcBlend | .shaderInt16 | .multiDrawIndirect | .drawIndirectFirstInstance
  | .depthBiasClamp | .fillModeNonSolid => "VkPhysicalDeviceFeatures2_.features"
  | .shaderSampledImageArrayNonUniformIndexing
  | .descriptorBindingUniformBufferUpdateAfterBind
  | .descriptorBindingSampledImageUpdateAfterBind
  | .descriptorBindingStorageImageUpdateAfterBind
  | .descriptorBindingStorageBufferUpdateAfterBind
  | .descriptorBindingUpdateUnusedWhilePending
  | .descriptorBindingPartiallyBound
  | .runtimeDescriptorArray => "VkPhysicalDeviceDescriptorIndexingFeaturesEXT_"
  | .storageBuffer16BitAccess => "VkPhysicalDevice16BitStorageFeatures_"
  | .bufferDeviceAddress => "VkPhysicalDeviceBufferDeviceAddressFeaturesKHR_"
  | .multiview => "VkPhysicalDeviceMultiviewFeatures_"
  | .samplerYcbcrConversion => "VkPhysicalDeviceSamplerYcbcrConversionFeatures_"
  | .shaderDrawParameters => "VkPhysicalDeviceShaderDrawParametersFeatures_"
  | .shaderFloat16 => "VkPhysicalDeviceShaderFloat16Int8Features_"

/-- The stringized field-name token of the macro expansion. -/
def fieldFieldName (f : CheckedField) : String :=
  match f with
  | .dualSrcBlend => "dualSrcBlend"
  | .shaderInt16 => "shaderInt16"
  | .multiDrawIndirect => "multiDrawIndirect"
  | .drawIndirectFirstInstance => "drawIndirectFirstInstance"
  | .depthBiasClamp => "depthBiasClamp"
  | .fillModeNonSolid => "fillModeNonSolid"
  | .shaderSampledImageArrayNonUniformIndexing => "shaderSampledImageArrayNonUniformIndexing"
  | .descriptorBindingUniformBufferUpdateAfterBind =>
    "descriptorBindingUniformBufferUpdateAfterBind"
  | .descriptorBindingSampledImageUpdateAfterBind =>
    "descriptorBindingSampledImageUpdateAfterBind"
  | .descriptorBindingStorageImageUpdateAfterBind =>
    "descriptorBindingStorageImageUpdateAfterBind"
  | .descriptorBindingStorageBufferUpdateAfterBind =>
    "descriptorBindingStorageBufferUpdateAfterBind"
  | .descriptorBindingUpdateUnusedWhilePending => "descriptorBindingUpdateUnusedWhilePending"
  | .descriptorBindingPartiallyBound => "descriptorBindingPartiallyBound"
  | .runtimeDescriptorArray => "runtimeDescriptorArray"
  | .storageBuffer16BitAccess => "storageBuffer16BitAccess"
  | .bufferDeviceAddress => "bufferDeviceAddress"
  | .multiview => "multiview"
  | .samplerYcbcrConversion => "samplerYcbcrConversion"
  | .shaderDrawParameters => "shaderDrawParameters"
  | .shaderFloat16 => "shaderFloat16"

/-- The exact fragment `ENABLE_VULKAN_FEATURE` appends for a missing
field: `"\n   " version " " #requestedFeatureStruct "." #feature`
(spelled out literally per field; `entryString_decompose` below recovers
the tag/struct/field decomposition). -/
def entryString (f : CheckedField) : String :=
  match f with
  | .dualSrcBlend => "\n   1.1 VkPhysicalDeviceFeatures2_.features.dualSrcBlend"
  | .shaderInt16 => "\n   1.1 VkPhysicalDeviceFeatures2_.features.shaderInt16"
  | .multiDrawIndirect => "\n   1.1 VkPhysicalDeviceFeatures2_.features.multiDrawIndirect"
  | .drawIndirectFirstInstance =>
    "\n   1.1 VkPhysicalDeviceFeatures2_.features.drawIndirectFirstInstance"
  | .depthBiasClamp => "\n   1.1 VkPhysicalDeviceFeatures2_.features.depthBiasClamp"
  | .fillModeNonSolid => "\n   1.1 VkPhysicalDeviceFeatures2_.features.fillModeNonSolid"
  | .shaderSampledImageArrayNonUniformIndexing =>
    "\n   1.1 EXT VkPhysicalDeviceDescriptorIndexingFeaturesEXT_.shaderSampledImageArrayNonUniformIndexing"
  | .descriptorBindingUniformBufferUpdateAfterBind =>
    "\n   1.1 EXT VkPhysicalDeviceDescriptorIndexingFeaturesEXT_.descriptorBindingUniformBufferUpdateAfterBind"
  | .descriptorBindingSampledImageUpdateAfterBind =>
    "\n   1.1 EXT VkPhysicalDeviceDescriptorIndexingFeaturesEXT_.descriptorBindingSampledImageUpdateAfterBind"
  | .descriptorBindingStorageImageUpdateAfterBind =>
    "\n   1.1 EXT VkPhysicalDeviceDescriptorIndexingFeaturesEXT_.descriptorBindingStorageImageUpdateAfterBind"
  | .descriptorBindingStorageBufferUpdateAfterBind =>
    "\n   1.1 EXT VkPhysicalDeviceDescriptorIndexingFeaturesEXT_.descriptorBindingStorageBufferUpdateAfterBind"
  | .descriptorBindingUpdateUnusedWhilePending =>
    "\n   1.1 EXT VkPhysicalDeviceDescriptorIndexingFeaturesEXT_.descriptorBindingUpdateUnusedWhilePending"
  | .descriptorBindingPartiallyBound =>
    "\n   1.1 EXT VkPhysicalDeviceDescriptorIndexingFeaturesEXT_.descriptorBindingPartiallyBound"
  | .runtimeDescriptorArray =>
    "\n   1.1 EXT VkPhysicalDeviceDescriptorIndexingFeaturesEXT_.runtimeDescriptorArray"
  | .storageBuffer16BitAccess =>
    "\n   1.1 EXT VkPhysicalDevice16BitStorageFeatures_.storageBuffer16BitAccess"
  | .bufferDeviceAddress =>
    "\n   1.1 EXT VkPhysicalDeviceBufferDeviceAddressFeaturesKHR_.bufferDeviceAddress"
  | .multiview => "\n   1.1 EXT VkPhysicalDeviceMultiviewFeatures_.multiview"
  | .samplerYcbcrConversion =>
    "\n   1.1 EXT VkPhysicalDeviceSamplerYcbcrConversionFeatures_.samplerYcbcrConversion"
  | .shaderDrawParameters =>
    "\n   1.1 EXT VkPhysicalDeviceShaderDrawParametersFeatures_.shaderDrawParameters"
  | .shaderFloat16 => "\n   1.2 VkPhysicalDeviceShaderFloat16Int8Features_.shaderFloat16"

/-- The order in which `checkSelectedFeatures` performs its checks
(source order of the macro invocations). -/
def checkOrder : List CheckedField :=
  [.dualSrcBlend, .shaderInt16, .multiDrawIndirect, .drawIndirectFirstInstance,
   .depthBiasClamp, .fillModeNonSolid,
   .shaderSampledImageArrayNonUniformIndexing,
   .descriptorBindingUniformBufferUpdateAfterBind,
   .descriptorBindingSampledImageUpdateAfterBind,
   .descriptorBindingStorageImageUpdateAfterBind,
   .descriptorBindingStorageBufferUpdateAfterBind,
   .descriptorBindingUpdateUnusedWhilePending,
   .descriptorBindingPartiallyBound,
   .runtimeDescriptorArray,
   .storageBuffer16BitAccess,
   .bufferDeviceAddress,
   .multiview, .samplerYcbcrConversion, .shaderDrawParameters,
   .shaderFloat16]

/-- The checked fields that end up in the missing-feature report:
configuration-gated, requested (`VK_TRUE` on the requested side) and
unavailable (`VK_FALSE` on the available side), in check order. -/
def missingFields (req avail : VulkanFeatures) : List CheckedField :=
  checkOrder.filter fun f =>
    fieldGate f req.config_ && fieldValue f req && !fieldValue f avail

/-- One expansion of `ENABLE_VULKAN_FEATURE(requested, available,
feature, version)`: if the feature is requested (`VK_TRUE`) and not
available (`VK_FALSE`), the entry fragment is appended. -/
def featureCheck (requested available : Bool) (entry : String) : List String :=
  if requested && !available then [entry] else []

/-- The fragments `checkSelectedFeatures` appends to `missingFeatures`,
in source order; the accumulated `std::string` is their concatenation.
`req` plays the role of `*this` (so the `config_` gates read the
requested side's configuration). -/
def missingFeaturesList (req avail : VulkanFeatures) : List String :=
  featureCheck req.VkPhysicalDeviceFeatures2_.features.dualSrcBlend
    avail.VkPhysicalDeviceFeatures2_.features.dualSrcBlend
    "\n   1.1 VkPhysicalDeviceFeatures2_.features.dualSrcBlend"
  ++ featureCheck req.VkPhysicalDeviceFeatures2_.features.shaderInt16
    avail.VkPhysicalDeviceFeatures2_.features.shaderInt16
    "\n   1.1 VkPhysicalDeviceFeatures2_.features.shaderInt16"
  ++ featureCheck req.VkPhysicalDeviceFeatures2_.features.multiDrawIndirect
    avail.VkPhysicalDeviceFeatures2_.features.multiDrawIndirect
    "\n   1.1 VkPhysicalDeviceFeatures2_.features.multiDrawIndirect"
  ++ featureCheck req.VkPhysicalDeviceFeatures2_.features.drawIndirectFirstInstance
    avail.VkPhysicalDeviceFeatures2_.features.drawIndirectFirstInstance
    "\n   1.1 VkPhysicalDeviceFeatures2_.features.drawIndirectFirstInstance"
  ++ featureCheck req.VkPhysicalDeviceFeatures2_.features.depthBiasClamp
    avail.VkPhysicalDeviceFeatures2_.features.depthBiasClamp
    "\n   1.1 VkPhysicalDeviceFeatures2_.features.depthBiasClamp"
  ++ featureCheck req.VkPhysicalDeviceFeatures2_.features.fillModeNonSolid
    avail.VkPhysicalDeviceFeatures2_.features.fillModeNonSolid
    "\n   1.1 VkPhysicalDeviceFeatures2_.features.fillModeNonSolid"
  ++ (if req.config_.enableDescriptorIndexing then
      featureCheck
        req.VkPhysicalDeviceDescriptorIndexingFeaturesEXT_.shaderSampledImageArrayNonUniformIndexing
        avail.VkPhysicalDeviceDescriptorIndexingFeaturesEXT_.shaderSampledImageArrayNonUniformIndexing
        "\n   1.1 EXT VkPhysicalDeviceDescriptorIndexingFeaturesEXT_.shaderSampledImageArrayNonUniformIndexing"
      ++ featureCheck
        req.VkPhysicalDeviceDescriptorIndexingFeaturesEXT_.descriptorBindingUniformBufferUpdateAfterBind
        avail.VkPhysicalDeviceDescriptorIndexingFeaturesEXT_.descriptorBindingUniformBufferUpdateAfterBind
        "\n   1.1 EXT VkPhysicalDeviceDescriptorIndexingFeaturesEXT_.descriptorBindingUniformBufferUpdateAfterBind"
      ++ featureCheck
        req.VkPhysicalDeviceDescriptorIndexingFeaturesEXT_.descriptorBindingSampledImageUpdateAfterBind
        avail.VkPhysicalDeviceDescriptorIndexingFeaturesEXT_.descriptorBindingSampledImageUpdateAfterBind
        "\n   1.1 EXT VkPhysicalDeviceDescriptorIndexingFeaturesEXT_.descriptorBindingSampledImageUpdateAfterBind"
      ++ featureCheck
        req.VkPhysicalDeviceDescriptorIndexingFeaturesEXT_.descriptorBindingStorageImageUpdateAfterBind
        avail.VkPhysicalDeviceDescriptorIndexingFeaturesEXT_.descriptorBindingStorageImageUpdateAfterBind
        "\n   1.1 EXT VkPhysicalDeviceDescriptorIndexingFeaturesEXT_.descriptorBindingStorageImageUpdateAfterBind"
      ++ featureCheck
        req.VkPhysicalDeviceDescriptorIndexingFeaturesEXT_.descriptorBindingStorageBufferUpdateAfterBind
        avail.VkPhysicalDeviceDescriptorIndexingFeaturesEXT_.descriptorBindingStorageBufferUpdateAfterBind
        "\n   1.1 EXT VkPhysicalDeviceDescriptorIndexingFeaturesEXT_.descriptorBindingStorageBufferUpdateAfterBind"
      ++ featureCheck
        req.VkPhysicalDeviceDescriptorIndexingFeaturesEXT_.descriptorBindingUpdateUnusedWhilePending
        avail.VkPhysicalDeviceDescriptorIndexingFeaturesEXT_.descriptorBindingUpdateUnusedWhilePending
        "\n   1.1 EXT VkPhysicalDeviceDescriptorIndexingFeaturesEXT_.descriptorBindingUpdateUnusedWhilePending"
      ++ featureCheck
        req.VkPhysicalDeviceDescriptorIndexingFeaturesEXT_.descriptorBindingPartiallyBound
        avail.VkPhysicalDeviceDescriptorIndexingFeaturesEXT_.descriptorBindingPartiallyBound
        "\n   1.1 EXT VkPhysicalDeviceDescriptorIndexingFeaturesEXT_.descriptorBindingPartiallyBound"
      ++ featureCheck
        req.VkPhysicalDeviceDescriptorIndexingFeaturesEXT_.runtimeDescriptorArray
        avail.VkPhysicalDeviceDescriptorIndexingFeaturesEXT_.runtimeDescriptorArray
        "\n   1.1 EXT VkPhysicalDeviceDescriptorIndexingFeaturesEXT_.runtimeDescriptorArray"
    else [])
  ++ featureCheck req.VkPhysicalDevice16BitStorageFeatures_.storageBuffer16BitAccess
    avail.VkPhysicalDevice16BitStorageFeatures_.storageBuffer16BitAccess
    "\n   1.1 EXT VkPhysicalDevice16BitStorageFeatures_.storageBuffer16BitAccess"
  ++ (if req.config_.enableBufferDeviceAddress then
      featureCheck req.VkPhysicalDeviceBufferDeviceAddressFeaturesKHR_.bufferDeviceAddress
        avail.VkPhysicalDeviceBufferDeviceAddressFeaturesKHR_.bufferDeviceAddress
        "\n   1.1 EXT VkPhysicalDeviceBufferDeviceAddressFeaturesKHR_.bufferDeviceAddress"
    else [])
  ++ featureCheck req.VkPhysicalDeviceMultiviewFeatures_.multiview
    avail.VkPhysicalDeviceMultiviewFeatures_.multiview
    "\n   1.1 EXT VkPhysicalDeviceMultiviewFeatures_.multiview"
  ++ featureCheck req.VkPhysicalDeviceSamplerYcbcrConversionFeatures_.samplerYcbcrConversion
    avail.VkPhysicalDeviceSamplerYcbcrConversionFeatures_.samplerYcbcrConversion
    "\n   1.1 EXT VkPhysicalDeviceSamplerYcbcrConversionFeatures_.samplerYcbcrConversion"
  ++ featureCheck req.VkPhysicalDeviceShaderDrawParametersFeatures_.shaderDrawParameters
    avail.VkPhysicalDeviceShaderDrawParametersFeatures_.shaderDrawParameters
    "\n   1.1 EXT VkPhysicalDeviceShaderDrawParametersFeatures_.shaderDrawParameters"
  ++ featureCheck req.VkPhysicalDeviceShaderFloat16Int8Features_.shaderFloat16
    avail.VkPhysicalDeviceShaderFloat16Int8Features_.shaderFloat16
    "\n   1.2 VkPhysicalDeviceShaderFloat16Int8Features_.shaderFloat16"

/-- Modelled from the spec: the `igl::Result` type is declared outside
the excerpted sources; the excerpt constructs it only as `Result{}`
(success) and `Result(Result::Code::RuntimeError)`, so only those two
codes are modelled. -/
inductive ResultCode where
  | Ok
  | RuntimeError
  deriving DecidableEq, Repr

/-- A returned `igl::Result` value (code only; both constructions in the
excerpt leave the message empty). -/
structure Result where
  code : ResultCode
  deriving DecidableEq, Repr

/-- Everything observable about one `checkSelectedFeatures` call that
did not trip the version assertion: the accumulated `missingFeatures`
string, whether `IGL_DEBUG_ABORT` fired, whether `IGL_LOG_INFO` fired,
and the returned `Result`. -/
structure CheckFeaturesOutcome where
  missingFeatures : String
  debugAborted : Bool
  loggedInfo : Bool
  returned : Result
  deriving DecidableEq, Repr

/-- `VulkanFeatures::checkSelectedFeatures(availableFeatures)` on `req =
*this`.  Modelled from the spec: `IGL_DEBUG_ASSERT`, `IGL_DEBUG_ABORT`,
`IGL_LOG_INFO` and `IGL_PLATFORM_APPLE` are preprocessor facilities
outside the excerpted sources; per spec §4.4/§7 the version assertion
is an abort (`none`), the platform carve-out is a single boolean switch
(`platformApple`), and a failed `IGL_DEBUG_ABORT` on the non-Apple path
is recorded in `debugAborted` before `Result(RuntimeError)` is
returned. -/
def checkSelectedFeatures (platformApple : Bool) (req avail : VulkanFeatures) :
    Option CheckFeaturesOutcome :=
  if avail.version_ = req.version_ then
    if !(String.join (missingFeaturesList req avail)).isEmpty then
      if platformApple then
        some { missingFeatures := String.join (missingFeaturesList req avail),
               debugAborted := false, loggedInfo := true,
               returned := { code := ResultCode.Ok } }
      else
        some { missingFeatures := String.join (missingFeaturesList req avail),
               debugAborted := true, loggedInfo := false,
               returned := { code := ResultCode.RuntimeError } }
    else
      some { missingFeatures := String.join (missingFeaturesList req avail),
             debugAborted := false, loggedInfo := false,
             returned := { code := ResultCode.Ok } }
  else none

/-! Helper definitions and lemmas (proof infrastructure, not part of the
source embedding). -/

/-- The successor of `b` in the chain order `l` (`none` if `b` is last
in `l` or absent from it). -/
def nextInChain : List Block → Block → Option Block
  | [], _ => none
  | [_], _ => none
  | x :: y :: rest, b => if b = x then some y else nextInChain (y :: rest) b

/-- Overwrite all twelve `pNext` members of `vf` so that they realize
exactly the chain `l` (blocks not in `l` get a null link). -/
def setChain (vf : VulkanFeatures) (l : List Block) : VulkanFeatures :=
  { vf with
    VkPhysicalDeviceFeatures2_ := { vf.VkPhysicalDeviceFeatures2_ with pNext := l.head? },
    VkPhysicalDeviceSamplerYcbcrConversionFeatures_ :=
      { vf.VkPhysicalDeviceSamplerYcbcrConversionFeatures_ with
        pNext := nextInChain l .samplerYcbcr },
    VkPhysicalDeviceShaderDrawParametersFeatures_ :=
      { vf.VkPhysicalDeviceShaderDrawParametersFeatures_ with
        pNext := nextInChain l .shaderDrawParameters },
    VkPhysicalDeviceMultiviewFeatures_ :=
      { vf.VkPhysicalDeviceMultiviewFeatures_ with pNext := nextInChain l .multiview },
    VkPhysicalDeviceBufferDeviceAddressFeaturesKHR_ :=
      { vf.VkPhysicalDeviceBufferDeviceAddressFeaturesKHR_ with
        pNext := nextInChain l .bufferDeviceAddress },
    VkPhysicalDeviceDescriptorIndexingFeaturesEXT_ :=
      { vf.VkPhysicalDeviceDescriptorIndexingFeaturesEXT_ with
        pNext := nextInChain l .descriptorIndexing },
    VkPhysicalDevice16BitStorageFeatures_ :=
      { vf.VkPhysicalDevice16BitStorageFeatures_ with pNext := nextInChain l .storage16Bit },
    VkPhysicalDeviceShaderFloat16Int8Features_ :=
      { vf.VkPhysicalDeviceShaderFloat16Int8Features_ with
        pNext := nextInChain l .shaderFloat16Int8 },
    VkPhysicalDeviceIndexTypeUint8Features_ :=
      { vf.VkPhysicalDeviceIndexTypeUint8Features_ with
        pNext := nextInChain l .indexTypeUint8 },
    VkPhysicalDeviceSynchronization2Features_ :=
      { vf.VkPhysicalDeviceSynchronization2Features_ with
        pNext := nextInChain l .synchronization2 },
    VkPhysicalDeviceTimelineSemaphoreFeatures_ :=
      { vf.VkPhysicalDeviceTimelineSemaphoreFeatures_ with
        pNext := nextInChain l .timelineSemaphore } }

/-- The blocks whose gating condition holds, in the assembler's link
order. -/
def gatedChain (version : Nat) (config : VulkanContextConfig) (exts : List String) :
    List Block :=
  [Block.samplerYcbcr, Block.shaderDrawParameters, Block.multiview]
  ++ (if version ≥ vkApiVersion12 then [Block.shaderFloat16Int8] else [])
  ++ (if config.enableBufferDeviceAddress then [Block.bufferDeviceAddress] else [])
  ++ (if config.enableDescriptorIndexing then [Block.descriptorIndexing] else [])
  ++ [Block.storage16Bit]
  ++ (if hasExtension exts extIndexTypeUint8Name then [Block.indexTypeUint8] else [])
  ++ (if hasExtension exts extSynchronization2Name then [Block.synchronization2] else [])
  ++ (if hasExtension exts extTimelineSemaphoreName then [Block.timelineSemaphore] else [])

/-- The gating condition of block `b`, as the spec states it:
unconditional for the sampler-ycbcr, shader-draw-parameters, multiview
and 16-bit-storage blocks; minimum version for the float16/int8 block;
configuration toggle for buffer-device-address and descriptor-indexing;
extension-catalog membership (exact string match) for the remaining
three. -/
def blockGate (b : Block) (version : Nat) (config : VulkanContextConfig)
    (exts : List String) : Bool :=
  match b with
  | .samplerYcbcr | .shaderDrawParameters | .multiview | .storage16Bit => true
  | .shaderFloat16Int8 => version ≥ vkApiVersion12
  | .bufferDeviceAddress => config.enableBufferDeviceAddress
  | .descriptorIndexing => config.enableDescriptorIndexing
  | .indexTypeUint8 => hasExtension exts extIndexTypeUint8Name
  | .synchronization2 => hasExtension exts extSynchronization2Name
  | .timelineSemaphore => hasExtension exts extTimelineSemaphoreName

set_option maxRecDepth 8000 in
/-- Closed form of the assembler: the result is the input with all
`pNext` members overwritten to realize exactly the gated chain. -/
theorem assembleFeatureChain_eq_setChain (vf : VulkanFeatures)
    (config : VulkanContextConfig) :
    assembleFeatureChain vf config =
      setChain vf (gatedChain vf.version_ config vf.extensions_) := by
  by_cases h1 : vf.version_ ≥ vkApiVersion12 <;>
  cases h2 : config.enableBufferDeviceAddress <;>
  cases h3 : config.enableDescriptorIndexing <;>
  cases h4 : hasExtension vf.extensions_ extIndexTypeUint8Name <;>
  cases h5 : hasExtension vf.extensions_ extSynchronization2Name <;>
  cases h6 : hasExtension vf.extensions_ extTimelineSemaphoreName <;>
    simp only [assembleFeatureChain, assembleOps, gatedChain, h1, h2, h3, h4, h5, h6,
      if_true, if_false, ite_true, ite_false, Bool.false_eq_true, List.append_assoc,
      List.cons_append, List.nil_append, List.append_nil] <;>
    dsimp only [runOps, List.foldl, runOp, ivkAddNext, addNextAux, getNext, setNext,
      setChain, nextInChain, List.head?] <;>
    rfl

set_option maxRecDepth 8000 in
/-- Walking the chain of a `setChain`-normal state recovers exactly the
gated chain. -/
theorem chainBlocks_setChain_gated (vf : VulkanFeatures) (config : VulkanContextConfig) :
    chainBlocks (setChain vf (gatedChain vf.version_ config vf.extensions_)) =
      gatedChain vf.version_ config vf.extensions_ := by
  by_cases h1 : vf.version_ ≥ vkApiVersion12 <;>
  cases h2 : config.enableBufferDeviceAddress <;>
  cases h3 : config.enableDescriptorIndexing <;>
  cases h4 : hasExtension vf.extensions_ extIndexTypeUint8Name <;>
  cases h5 : hasExtension vf.extensions_ extSynchronization2Name <;>
  cases h6 : hasExtension vf.extensions_ extTimelineSemaphoreName <;>
    simp only [gatedChain, h1, h2, h3, h4, h5, h6, if_true, if_false, ite_true, ite_false,
      Bool.false_eq_true, List.append_assoc, List.cons_append, List.nil_append,
      List.append_nil] <;>
    rfl

theorem mem_ite_singleton (c : Prop) [inst : Decidable c] (x y : α) :
    (x ∈ (if c then [y] else [])) ↔ (c ∧ x = y) := by
  by_cases h : c <;> simp [h]

/-- Membership in the gated chain is exactly the gating condition. -/
theorem mem_gatedChain (b : Block) (version : Nat) (config : VulkanContextConfig)
    (exts : List String) :
    b ∈ gatedChain version config exts ↔ blockGate b version config exts = true := by
  cases b <;>
    simp [gatedChain, blockGate, List.mem_append, mem_ite_singleton, decide_eq_true_eq]

theorem ite_singleton_append (c : Prop) [inst : Decidable c] (x : α) (l : List α) :
    (if c then [x] else []) ++ l = if c then x :: l else l := by
  by_cases h : c <;> simp [h]

theorem ite_append_right (c : Prop) [inst : Decidable c] (l1 l2 l3 : List α) :
    (if c then l1 else l2) ++ l3 = if c then l1 ++ l3 else l2 ++ l3 := by
  by_cases h : c <;> simp [h]

theorem map_ite_list (c : Prop) [inst : Decidable c] (g : α → β) (l1 l2 : List α) :
    List.map g (if c then l1 else l2) = if c then List.map g l1 else List.map g l2 := by
  by_cases h : c <;> simp [h]

set_option maxRecDepth 8000 in
/-- The fragment list appended by `checkSelectedFeatures` is the entry
rendering of the missing-field table, in check order. -/
theorem missingFeaturesList_eq_map (req avail : VulkanFeatures) :
    missingFeaturesList req avail = (missingFields req avail).map entryString := by
  cases hdi : req.config_.enableDescriptorIndexing <;>
  cases hbda : req.config_.enableBufferDeviceAddress <;>
    simp only [missingFeaturesList, missingFields, checkOrder, featureCheck, entryString,
      fieldValue, fieldGate, hdi, hbda,
      List.filter_cons, List.filter_nil, Bool.true_and, Bool.false_and, Bool.and_eq_true,
      Bool.not_eq_true', if_true, if_false, List.map_cons, List.map_nil, map_ite_list,
      List.append_assoc, List.append_nil, List.nil_append, List.cons_append,
      List.singleton_append, ite_append_right, ite_singleton_append] <;>
    rfl

/-- Every entry fragment decomposes as newline, three-space indent, tag,
space, stringized struct token, dot, field name. -/
theorem entryString_decompose (f : CheckedField) :
    entryString f =
      "\n   " ++ fieldTag f ++ " " ++ fieldStructName f ++ "." ++ fieldFieldName f := by
  cases f <;> rfl

/-- Entry fragments are pairwise distinct across checked fields. -/
theorem entryString_injective (f g : CheckedField) (h : entryString f = entryString g) :
    f = g := by
  revert h
  cases f <;> cases g <;> decide

/-- Entry fragments are never the empty string. -/
theorem entryString_ne_empty (f : CheckedField) : entryString f ≠ "" := by
  cases f <;> decide

theorem join_eq_empty_of_ne (l : List String) (h : ∀ s ∈ l, s ≠ "") :
    (String.join l = "") ↔ l = [] := by
  constructor
  · intro hj
    have hd : (l.map String.data).flatten = [] := by
      have hc := congrArg String.data hj
      rw [String.join_eq] at hc
      simpa using hc
    rw [List.flatten_eq_nil_iff] at hd
    cases l with
    | nil => rfl
    | cons s rest =>
      exfalso
      have hs : s.data = [] := hd s.data (by simp)
      have hse : s = "" := by
        cases s with
        | mk d => simp only at hs; simp [hs]
      exact h s (by simp) hse
  · intro hl
    subst hl
    rfl

/-- Every field of `checkOrder` (i.e. `checkOrder` enumerates all of
`CheckedField`). -/
theorem mem_checkOrder (f : CheckedField) : f ∈ checkOrder := by
  cases f <;> decide

/-- The claim's universally quantified premise "every feature field the
requested set has set to VK_TRUE is also VK_TRUE in the available set",
spelled out over every modelled boolean feature field of every block
(this follows the claim's wording; the source compares only the 20
`CheckedField`s). -/
def allRequestedAvailable (req avail : VulkanFeatures) : Bool :=
  (!req.VkPhysicalDeviceFeatures2_.features.dualSrcBlend
      || avail.VkPhysicalDeviceFeatures2_.features.dualSrcBlend) &&
  (!req.VkPhysicalDeviceFeatures2_.features.shaderInt16
      || avail.VkPhysicalDeviceFeatures2_.features.shaderInt16) &&
  (!req.VkPhysicalDeviceFeatures2_.features.multiDrawIndirect
      || avail.VkPhysicalDeviceFeatures2_.features.multiDrawIndirect) &&
  (!req.VkPhysicalDeviceFeatures2_.features.drawIndirectFirstInstance
      || avail.VkPhysicalDeviceFeatures2_.features.drawIndirectFirstInstance) &&
  (!req.VkPhysicalDeviceFeatures2_.features.depthBiasClamp
      || avail.VkPhysicalDeviceFeatures2_.features.depthBiasClamp) &&
  (!req.VkPhysicalDeviceFeatures2_.features.fillModeNonSolid
      || avail.VkPhysicalDeviceFeatures2_.features.fillModeNonSolid) &&
  (!req.VkPhysicalDeviceSamplerYcbcrConversionFeatures_.samplerYcbcrConversion
      || avail.VkPhysicalDeviceSamplerYcbcrConversionFeatures_.samplerYcbcrConversion) &&
  (!req.VkPhysicalDeviceShaderDrawParametersFeatures_.shaderDrawParameters
      || avail.VkPhysicalDeviceShaderDrawParametersFeatures_.shaderDrawParameters) &&
  (!req.VkPhysicalDeviceMultiviewFeatures_.multiview
      || avail.VkPhysicalDeviceMultiviewFeatures_.multiview) &&
  (!req.VkPhysicalDeviceMultiviewFeatures_.multiviewGeometryShader
      || avail.VkPhysicalDeviceMultiviewFeatures_.multiviewGeometryShader) &&
  (!req.VkPhysicalDeviceMultiviewFeatures_.multiviewTessellationShader
      || avail.VkPhysicalDeviceMultiviewFeatures_.multiviewTessellationShader) &&
  (!req.VkPhysicalDeviceBufferDeviceAddressFeaturesKHR_.bufferDeviceAddress
      || avail.VkPhysicalDeviceBufferDeviceAddressFeaturesKHR_.bufferDeviceAddress) &&
  (!req.VkPhysicalDeviceBufferDeviceAddressFeaturesKHR_.bufferDeviceAddressCaptureReplay
      || avail.VkPhysicalDeviceBufferDeviceAddressFeaturesKHR_.bufferDeviceAddressCaptureReplay) &&
  (!req.VkPhysicalDeviceBufferDeviceAddressFeaturesKHR_.bufferDeviceAddressMultiDevice
      || avail.VkPhysicalDeviceBufferDeviceAddressFeaturesKHR_.bufferDeviceAddressMultiDevice) &&
  (!req.VkPhysicalDeviceDescriptorIndexingFeaturesEXT_.shaderInputAttachmentArrayDynamicIndexing
      || avail.VkPhysicalDeviceDescriptorIndexingFeaturesEXT_.shaderInputAttachmentArrayDynamicIndexing) &&
  (!req.VkPhysicalDeviceDescriptorIndexingFeaturesEXT_.shaderUniformTexelBufferArrayDynamicIndexing
      || avail.VkPhysicalDeviceDescriptorIndexingFeaturesEXT_.shaderUniformTexelBufferArrayDynamicIndexing) &&
  (!req.VkPhysicalDeviceDescriptorIndexingFeaturesEXT_.shaderStorageTexelBufferArrayDynamicIndexing
      || avail.VkPhysicalDeviceDescriptorIndexingFeaturesEXT_.shaderStorageTexelBufferArrayDynamicIndexing) &&
  (!req.VkPhysicalDeviceDescriptorIndexingFeaturesEXT_.shaderUniformBufferArrayNonUniformIndexing
      || avail.VkPhysicalDeviceDescriptorIndexingFeaturesEXT_.shaderUniformBufferArrayNonUniformIndexing) &&
  (!req.VkPhysicalDeviceDescriptorIndexingFeaturesEXT_.shaderSampledImageArrayNonUniformIndexing
      || avail.VkPhysicalDeviceDescriptorIndexingFeaturesEXT_.shaderSampledImageArrayNonUniformIndexing) &&
  (!req.VkPhysicalDeviceDescriptorIndexingFeaturesEXT_.shaderStorageBufferArrayNonUniformIndexing
      || avail.VkPhysicalDeviceDescriptorIndexingFeaturesEXT_.shaderStorageBufferArrayNonUniformIndexing) &&
  (!req.VkPhysicalDeviceDescriptorIndexingFeaturesEXT_.shaderStorageImageArrayNonUniformIndexing
      || avail.VkPhysicalDeviceDescriptorIndexingFeaturesEXT_.shaderStorageImageArrayNonUniformIndexing) &&
  (!req.VkPhysicalDeviceDescriptorIndexingFeaturesEXT_.shaderInputAttachmentArrayNonUniformIndexing
      || avail.VkPhysicalDeviceDescriptorIndexingFeaturesEXT_.shaderInputAttachmentArrayNonUniformIndexing) &&
  (!req.VkPhysicalDeviceDescriptorIndexingFeaturesEXT_.shaderUniformTexelBufferArrayNonUniformIndexing
      || avail.VkPhysicalDeviceDescriptorIndexingFeaturesEXT_.shaderUniformTexelBufferArrayNonUniformIndexing) &&
  (!req.VkPhysicalDeviceDescriptorIndexingFeaturesEXT_.shaderStorageTexelBufferArrayNonUniformIndexing
      || avail.VkPhysicalDeviceDescriptorIndexingFeaturesEXT_.shaderStorageTexelBufferArrayNonUniformIndexing) &&
  (!req.VkPhysicalDeviceDescriptorIndexingFeaturesEXT_.descriptorBindingUniformBufferUpdateAfterBind
      || avail.VkPhysicalDeviceDescriptorIndexingFeaturesEXT_.descriptorBindingUniformBufferUpdateAfterBind) &&
  (!req.VkPhysicalDeviceDescriptorIndexingFeaturesEXT_.descriptorBindingSampledImageUpdateAfterBind
      || avail.VkPhysicalDeviceDescriptorIndexingFeaturesEXT_.descriptorBindingSampledImageUpdateAfterBind) &&
  (!req.VkPhysicalDeviceDescriptorIndexingFeaturesEXT_.descriptorBindingStorageImageUpdateAfterBind
      || avail.VkPhysicalDeviceDescriptorIndexingFeaturesEXT_.descriptorBindingStorageImageUpdateAfterBind) &&
  (!req.VkPhysicalDeviceDescriptorIndexingFeaturesEXT_.descriptorBindingStorageBufferUpdateAfterBind
      || avail.VkPhysicalDeviceDescriptorIndexingFeaturesEXT_.descriptorBindingStorageBufferUpdateAfterBind) &&
  (!req.VkPhysicalDeviceDescriptorIndexingFeaturesEXT_.descriptorBindingUniformTexelBufferUpdateAfterBind
      || avail.VkPhysicalDeviceDescriptorIndexingFeaturesEXT_.descriptorBindingUniformTexelBufferUpdateAfterBind) &&
  (!req.VkPhysicalDeviceDescriptorIndexingFeaturesEXT_.descriptorBindingStorageTexelBufferUpdateAfterBind
      || avail.VkPhysicalDeviceDescriptorIndexingFeaturesEXT_.descriptorBindingStorageTexelBufferUpdateAfterBind) &&
  (!req.VkPhysicalDeviceDescriptorIndexingFeaturesEXT_.descriptorBindingUpdateUnusedWhilePending
      || avail.VkPhysicalDeviceDescriptorIndexingFeaturesEXT_.descriptorBindingUpdateUnusedWhilePending) &&
  (!req.VkPhysicalDeviceDescriptorIndexingFeaturesEXT_.descriptorBindingPartiallyBound
      || avail.VkPhysicalDeviceDescriptorIndexingFeaturesEXT_.descriptorBindingPartiallyBound) &&
  (!req.VkPhysicalDeviceDescriptorIndexingFeaturesEXT_.descriptorBindingVariableDescriptorCount
      || avail.VkPhysicalDeviceDescriptorIndexingFeaturesEXT_.descriptorBindingVariableDescriptorCount) &&
  (!req.VkPhysicalDeviceDescriptorIndexingFeaturesEXT_.runtimeDescriptorArray
      || avail.VkPhysicalDeviceDescriptorIndexingFeaturesEXT_.runtimeDescriptorArray) &&
  (!req.VkPhysicalDevice16BitStorageFeatures_.storageBuffer16BitAccess
      || avail.VkPhysicalDevice16BitStorageFeatures_.storageBuffer16BitAccess) &&
  (!req.VkPhysicalDevice16BitStorageFeatures_.uniformAndStorageBuffer16BitAccess
      || avail.VkPhysicalDevice16BitStorageFeatures_.uniformAndStorageBuffer16BitAccess) &&
  (!req.VkPhysicalDevice16BitStorageFeatures_.storagePushConstant16
      || avail.VkPhysicalDevice16BitStorageFeatures_.storagePushConstant16) &&
  (!req.VkPhysicalDevice16BitStorageFeatures_.storageInputOutput16
      || avail.VkPhysicalDevice16BitStorageFeatures_.storageInputOutput16) &&
  (!req.VkPhysicalDeviceShaderFloat16Int8Features_.shaderFloat16
      || avail.VkPhysicalDeviceShaderFloat16Int8Features_.shaderFloat16) &&
  (!req.VkPhysicalDeviceShaderFloat16Int8Features_.shaderInt8
      || avail.VkPhysicalDeviceShaderFloat16Int8Features_.shaderInt8) &&
  (!req.VkPhysicalDeviceIndexTypeUint8Features_.indexTypeUint8
      || avail.VkPhysicalDeviceIndexTypeUint8Features_.indexTypeUint8) &&
  (!req.VkPhysicalDeviceSynchronization2Features_.synchronization2
      || avail.VkPhysicalDeviceSynchronization2Features_.synchronization2) &&
  (!req.VkPhysicalDeviceTimelineSemaphoreFeatures_.timelineSemaphore
      || avail.VkPhysicalDeviceTimelineSemaphoreFeatures_.timelineSemaphore)

/-- An all-toggles-off configuration. -/
def cfgAllOff : VulkanContextConfig :=
  { enableBufferDeviceAddress := false, enableDescriptorIndexing := false,
    enableDualSrcBlend := false, enableShaderInt16 := false,
    enableStorageBuffer16BitAccess := false, enableShaderDrawParameters := false }

/-- A freshly constructed version-0 set with no toggles. -/
def vfBase : VulkanFeatures := VulkanFeatures.construct 0 cfgAllOff

/-- `vfBase` with the (never-checked) `multiviewGeometryShader` feature
requested. -/
def vfReqGeom : VulkanFeatures :=
  { vfBase with VkPhysicalDeviceMultiviewFeatures_ :=
      { vfBase.VkPhysicalDeviceMultiviewFeatures_ with multiviewGeometryShader := true } }

/-- `vfBase` with the checked `dualSrcBlend` feature requested. -/
def vfReqDual : VulkanFeatures :=
  { vfBase with VkPhysicalDeviceFeatures2_ :=
      { vfBase.VkPhysicalDeviceFeatures2_ with features :=
          { vfBase.VkPhysicalDeviceFeatures2_.features with dualSrcBlend := true } } }

/-- A freshly constructed version-1.2 set with no toggles. -/
def vfV12 : VulkanFeatures := VulkanFeatures.construct vkApiVersion12 cfgAllOff

/-- C3: after `assembleFeatureChain` runs, a capability block is linked
into the chain rooted at `VkPhysicalDeviceFeatures2_` if and only if its
gating condition holds: the sampler-ycbcr, shader-draw-parameters,
multiview and 16-bit-storage blocks always; the ShaderFloat16Int8 block
iff `version_ ≥ VK_API_VERSION_1_2`; the buffer-device-address and
descriptor-indexing blocks iff their configuration toggle is enabled;
the index-type-uint8, synchronization2 and timeline-semaphore blocks iff
their extension name occurs in the extension catalog by case-sensitive
exact string match (so never on an empty catalog). -/
theorem assembleFeatureChain_links_iff_gated (vf : VulkanFeatures)
    (config : VulkanContextConfig) (b : Block) :
    b ∈ chainBlocks (assembleFeatureChain vf config) ↔
      blockGate b vf.version_ config vf.extensions_ = true := by
  rw [assembleFeatureChain_eq_setChain, chainBlocks_setChain_gated, mem_gatedChain]

/-- C7: `assembleFeatureChain` is idempotent — rerunning it on its own
result (same configuration, and the unchanged version and extension
catalog it carries) leaves the entire object, in particular the chain,
unchanged. -/
theorem assembleFeatureChain_idempotent (vf : VulkanFeatures)
    (config : VulkanContextConfig) :
    assembleFeatureChain (assembleFeatureChain vf config) config =
      assembleFeatureChain vf config := by
  rw [assembleFeatureChain_eq_setChain vf config,
    assembleFeatureChain_eq_setChain
      (setChain vf (gatedChain vf.version_ config vf.extensions_)) config]
  rfl

/-- C10: a freshly constructed `VulkanFeatures` has every modelled
boolean feature field of every block equal to `VK_FALSE`, except
`synchronization2` and `timelineSemaphore`, which are `VK_TRUE`. -/
theorem construct_default_feature_values (version : Nat) (config : VulkanContextConfig) :
    (VulkanFeatures.construct version config).VkPhysicalDeviceSynchronization2Features_.synchronization2
        = true ∧
    (VulkanFeatures.construct version config).VkPhysicalDeviceTimelineSemaphoreFeatures_.timelineSemaphore
        = true ∧
    (VulkanFeatures.construct version config).VkPhysicalDeviceFeatures2_.features
        = { dualSrcBlend := false, shaderInt16 := false, multiDrawIndirect := false,
            drawIndirectFirstInstance := false, depthBiasClamp := false,
            fillModeNonSolid := false } ∧
    (VulkanFeatures.construct version config).VkPhysicalDeviceSamplerYcbcrConversionFeatures_.samplerYcbcrConversion
        = false ∧
    (VulkanFeatures.construct version config).VkPhysicalDeviceShaderDrawParametersFeatures_.shaderDrawParameters
        = false ∧
    (VulkanFeatures.construct version config).VkPhysicalDeviceMultiviewFeatures_.multiview = false ∧
    (VulkanFeatures.construct version config).VkPhysicalDeviceMultiviewFeatures_.multiviewGeometryShader
        = false ∧
    (VulkanFeatures.construct version config).VkPhysicalDeviceMultiviewFeatures_.multiviewTessellationShader
        = false ∧
    (VulkanFeatures.construct version config).VkPhysicalDeviceBufferDeviceAddressFeaturesKHR_.bufferDeviceAddress
        = false ∧
    (VulkanFeatures.construct version config).VkPhysicalDeviceBufferDeviceAddressFeaturesKHR_.bufferDeviceAddressCaptureReplay
        = false ∧
    (VulkanFeatures.construct version config).VkPhysicalDeviceBufferDeviceAddressFeaturesKHR_.bufferDeviceAddressMultiDevice
        = false ∧
    (VulkanFeatures.construct version config).VkPhysicalDeviceDescriptorIndexingFeaturesEXT_.shaderInputAttachmentArrayDynamicIndexing
        = false ∧
    (VulkanFeatures.construct version config).VkPhysicalDeviceDescriptorIndexingFeaturesEXT_.shaderUniformTexelBufferArrayDynamicIndexing
        = false ∧
    (VulkanFeatures.construct version config).VkPhysicalDeviceDescriptorIndexingFeaturesEXT_.shaderStorageTexelBufferArrayDynamicIndexing
        = false ∧
    (VulkanFeatures.construct version config).VkPhysicalDeviceDescriptorIndexingFeaturesEXT_.shaderUniformBufferArrayNonUniformIndexing
        = false ∧
    (VulkanFeatures.construct version config).VkPhysicalDeviceDescriptorIndexingFeaturesEXT_.shaderSampledImageArrayNonUniformIndexing
        = false ∧
    (VulkanFeatures.construct version config).VkPhysicalDeviceDescriptorIndexingFeaturesEXT_.shaderStorageBufferArrayNonUniformIndexing
        = false ∧
    (VulkanFeatures.construct version config).VkPhysicalDeviceDescriptorIndexingFeaturesEXT_.shaderStorageImageArrayNonUniformIndexing
        = false ∧
    (VulkanFeatures.construct version config).VkPhysicalDeviceDescriptorIndexingFeaturesEXT_.shaderInputAttachmentArrayNonUniformIndexing
        = false ∧
    (VulkanFeatures.construct version config).VkPhysicalDeviceDescriptorIndexingFeaturesEXT_.shaderUniformTexelBufferArrayNonUniformIndexing
        = false ∧
    (VulkanFeatures.construct version config).VkPhysicalDeviceDescriptorIndexingFeaturesEXT_.shaderStorageTexelBufferArrayNonUniformIndexing
        = false ∧
    (VulkanFeatures.construct version config).VkPhysicalDeviceDescriptorIndexingFeaturesEXT_.descriptorBindingUniformBufferUpdateAfterBind
        = false ∧
    (VulkanFeatures.construct version config).VkPhysicalDeviceDescriptorIndexingFeaturesEXT_.descriptorBindingSampledImageUpdateAfterBind
        = false ∧
    (VulkanFeatures.construct version config).VkPhysicalDeviceDescriptorIndexingFeaturesEXT_.descriptorBindingStorageImageUpdateAfterBind
        = false ∧
    (VulkanFeatures.construct version config).VkPhysicalDeviceDescriptorIndexingFeaturesEXT_.descriptorBindingStorageBufferUpdateAfterBind
        = false ∧
    (VulkanFeatures.construct version config).VkPhysicalDeviceDescriptorIndexingFeaturesEXT_.descriptorBindingUniformTexelBufferUpdateAfterBind
        = false ∧
    (VulkanFeatures.construct version config).VkPhysicalDeviceDescriptorIndexingFeaturesEXT_.descriptorBindingStorageTexelBufferUpdateAfterBind
        = false ∧
    (VulkanFeatures.construct version config).VkPhysicalDeviceDescriptorIndexingFeaturesEXT_.descriptorBindingUpdateUnusedWhilePending
        = false ∧
    (VulkanFeatures.construct version config).VkPhysicalDeviceDescriptorIndexingFeaturesEXT_.descriptorBindingPartiallyBound
        = false ∧
    (VulkanFeatures.construct version config).VkPhysicalDeviceDescriptorIndexingFeaturesEXT_.descriptorBindingVariableDescriptorCount
        = false ∧
    (VulkanFeatures.construct version config).VkPhysicalDeviceDescriptorIndexingFeaturesEXT_.runtimeDescriptorArray
        = false ∧
    (VulkanFeatures.construct version config).VkPhysicalDevice16BitStorageFeatures_.storageBuffer16BitAccess
        = false ∧
    (VulkanFeatures.construct version config).VkPhysicalDevice16BitStorageFeatures_.uniformAndStorageBuffer16BitAccess
        = false ∧
    (VulkanFeatures.construct version config).VkPhysicalDevice16BitStorageFeatures_.storagePushConstant16
        = false ∧
    (VulkanFeatures.construct version config).VkPhysicalDevice16BitStorageFeatures_.storageInputOutput16
        = false ∧
    (VulkanFeatures.construct version config).VkPhysicalDeviceShaderFloat16Int8Features_.shaderFloat16
        = false ∧
    (VulkanFeatures.construct version config).VkPhysicalDeviceShaderFloat16Int8Features_.shaderInt8
        = false ∧
    (VulkanFeatures.construct version config).VkPhysicalDeviceIndexTypeUint8Features_.indexTypeUint8
        = false := by
  rw [VulkanFeatures.construct, assembleFeatureChain_eq_setChain]
  repeat' apply And.intro
  all_goals rfl

/-- C4: calling `checkSelectedFeatures` with mismatched API versions
trips the version precondition assertion (modelled as the aborted
outcome `none`) and never continues to produce a reportable result. -/
theorem checkSelectedFeatures_version_mismatch_aborts (platformApple : Bool)
    (req avail : VulkanFeatures) (h : req.version_ ≠ avail.version_) :
    checkSelectedFeatures platformApple req avail = none := by
  rw [checkSelectedFeatures, if_neg (fun hc => h hc.symm)]

/-- Witness for C4 at a concrete version-1.1-vs-1.2 pair. -/
theorem checkSelectedFeatures_version_mismatch_aborts_witness :
    vfBase.version_ ≠ vfV12.version_ ∧
      checkSelectedFeatures false vfBase vfV12 = none :=
  ⟨by decide, checkSelectedFeatures_version_mismatch_aborts false vfBase vfV12 (by decide)⟩

/-- The emptiness of the accumulated report string is equivalent to the
emptiness of the missing-field table. -/
theorem join_missing_empty_iff (req avail : VulkanFeatures) :
    (String.join (missingFeaturesList req avail) = "") ↔ missingFields req avail = [] := by
  have hne : ∀ s ∈ missingFeaturesList req avail, s ≠ "" := by
    rw [missingFeaturesList_eq_map]
    intro s hs
    obtain ⟨f, _, rfl⟩ := List.mem_map.1 hs
    exact entryString_ne_empty f
  rw [join_eq_empty_of_ne _ hne, missingFeaturesList_eq_map, List.map_eq_nil_iff]

/-- The missing-field table is empty exactly when every gated checked
field the requested side sets is available. -/
theorem missingFields_eq_nil_iff (req avail : VulkanFeatures) :
    missingFields req avail = [] ↔
      ∀ f : CheckedField, fieldGate f req.config_ = true → fieldValue f req = true →
        fieldValue f avail = true := by
  rw [missingFields, List.filter_eq_nil_iff]
  constructor
  · intro hall f hg hv
    by_contra hfa
    have ha : fieldValue f avail = false := by
      cases hh : fieldValue f avail
      · rfl
      · exact absurd hh hfa
    exact hall f (mem_checkOrder f) (by simp [hg, hv, ha])
  · intro hall f _ hp
    simp only [Bool.and_eq_true, Bool.not_eq_true'] at hp
    obtain ⟨⟨hg, hv⟩, ha⟩ := hp
    rw [hall f hg hv] at ha
    exact absurd ha (by simp)

/-- C1 (amended): with matching versions, `checkSelectedFeatures`
returns the clean success outcome (Ok result, empty report, no abort and
no diagnostic) if and only if every field of the negotiator's checked
set whose gating condition is active in the requested configuration and
which the requested side sets to VK_TRUE is VK_TRUE on the available
side; and every such checked, gated field that is requested but
unavailable has its exact entry in the report. -/
theorem checkSelectedFeatures_checked_subset (platformApple : Bool)
    (req avail : VulkanFeatures) (h : avail.version_ = req.version_) :
    ((checkSelectedFeatures platformApple req avail =
        some { missingFeatures := "", debugAborted := false, loggedInfo := false,
               returned := { code := ResultCode.Ok } }) ↔
      (∀ f : CheckedField, fieldGate f req.config_ = true → fieldValue f req = true →
        fieldValue f avail = true)) ∧
    (∀ f : CheckedField, fieldGate f req.config_ = true → fieldValue f req = true →
      fieldValue f avail = false → entryString f ∈ missingFeaturesList req avail) := by
  constructor
  · rw [checkSelectedFeatures, if_pos h, ← missingFields_eq_nil_iff]
    by_cases hm : missingFields req avail = []
    · have hstr : String.join (missingFeaturesList req avail) = "" :=
        (join_missing_empty_iff req avail).2 hm
      rw [hstr]
      exact iff_of_true (by rw [show (("" : String).isEmpty) = true from rfl]; simp) hm
    · have hstr : String.join (missingFeaturesList req avail) ≠ "" :=
        fun hc => hm ((join_missing_empty_iff req avail).1 hc)
      have hie : (String.join (missingFeaturesList req avail)).isEmpty = false := by
        cases hb : (String.join (missingFeaturesList req avail)).isEmpty
        · rfl
        · exact absurd ((String.isEmpty_iff _).1 hb) hstr
      rw [hie]
      refine iff_of_false ?_ hm
      cases platformApple <;> simp
  · intro f hg hv ha
    rw [missingFeaturesList_eq_map]
    exact List.mem_map_of_mem _ (List.mem_filter.2 ⟨mem_checkOrder f, by simp [hg, hv, ha]⟩)

/-- Witness for C1's amended theorem at a concrete missing-feature pair:
`dualSrcBlend` requested, unavailable, and reported. -/
theorem checkSelectedFeatures_checked_subset_witness :
    vfBase.version_ = vfReqDual.version_ ∧
      entryString CheckedField.dualSrcBlend ∈ missingFeaturesList vfReqDual vfBase :=
  ⟨rfl, (checkSelectedFeatures_checked_subset false vfReqDual vfBase rfl).2
    CheckedField.dualSrcBlend (by decide) (by decide) (by decide)⟩

/-- C1 (counterexample to the claim as stated): `vfReqGeom` requests the
(never-checked) `multiviewGeometryShader` feature, which the available
side `vfBase` reports as VK_FALSE, yet negotiation (equal version 0,
non-Apple policy) returns the clean success outcome with an empty
report — so success is not equivalent to "every field R sets to VK_TRUE
is also VK_TRUE in A". -/
theorem checkSelectedFeatures_success_despite_unavailable_request :
    allRequestedAvailable vfReqGeom vfBase = false ∧
      vfReqGeom.version_ = vfBase.version_ ∧
      checkSelectedFeatures false vfReqGeom vfBase =
        some { missingFeatures := "", debugAborted := false, loggedInfo := false,
               returned := { code := ResultCode.Ok } } := by
  decide

/-- C8: a feature field the requested side does not set to VK_TRUE never
contributes an entry to the missing-feature report, whatever the
available side holds. -/
theorem checkSelectedFeatures_ignores_unrequested (req avail : VulkanFeatures)
    (f : CheckedField) (h : fieldValue f req = false) :
    entryString f ∉ missingFeaturesList req avail := by
  rw [missingFeaturesList_eq_map]
  intro hmem
  obtain ⟨g, hg, he⟩ := List.mem_map.1 hmem
  obtain rfl := entryString_injective g f he
  have hp := (List.mem_filter.1 hg).2
  simp only [Bool.and_eq_true] at hp
  exact absurd hp.1.2 (by simp [h])

/-- Witness for C8: `dualSrcBlend` is unrequested in `vfBase` and indeed
absent from the report against an available side that also lacks it. -/
theorem checkSelectedFeatures_ignores_unrequested_witness :
    fieldValue CheckedField.dualSrcBlend vfBase = false ∧
      entryString CheckedField.dualSrcBlend ∉ missingFeaturesList vfBase vfBase :=
  ⟨by decide,
    checkSelectedFeatures_ignores_unrequested vfBase vfBase CheckedField.dualSrcBlend
      (by decide)⟩

/-- C5: whenever the report is non-empty, the outcome is decided by the
single platform switch: non-Apple platforms abort (`IGL_DEBUG_ABORT`)
and return the RuntimeError result; the Apple platform family instead
logs a non-fatal diagnostic (`IGL_LOG_INFO`) and returns the Ok
result. -/
theorem checkSelectedFeatures_platform_policy (platformApple : Bool)
    (req avail : VulkanFeatures) (o : CheckFeaturesOutcome)
    (ho : checkSelectedFeatures platformApple req avail = some o)
    (hm : o.missingFeatures ≠ "") :
    (platformApple = false →
      o.debugAborted = true ∧ o.loggedInfo = false ∧
        o.returned = { code := ResultCode.RuntimeError }) ∧
    (platformApple = true →
      o.debugAborted = false ∧ o.loggedInfo = true ∧
        o.returned = { code := ResultCode.Ok }) := by
  rw [checkSelectedFeatures] at ho
  by_cases hv : avail.version_ = req.version_
  · rw [if_pos hv] at ho
    cases hie : (String.join (missingFeaturesList req avail)).isEmpty with
    | true =>
      rw [hie] at ho
      simp only [Bool.not_true, Bool.false_eq_true, if_false] at ho
      obtain rfl := Option.some.inj ho
      exact absurd ((String.isEmpty_iff _).1 hie) hm
    | false =>
      rw [hie] at ho
      simp only [Bool.not_false, if_true] at ho
      cases platformApple with
      | false =>
        obtain rfl := Option.some.inj (by simpa using ho)
        exact ⟨fun _ => ⟨rfl, rfl, rfl⟩, fun hc => absurd hc (by simp)⟩
      | true =>
        obtain rfl := Option.some.inj (by simpa using ho)
        exact ⟨fun hc => absurd hc (by simp), fun _ => ⟨rfl, rfl, rfl⟩⟩
  · rw [if_neg hv] at ho
    exact absurd ho (by simp)

/-- Witness for C5 at the concrete missing `dualSrcBlend` negotiation on
the non-Apple policy. -/
theorem checkSelectedFeatures_platform_policy_witness :
    checkSelectedFeatures false vfReqDual vfBase =
      some { missingFeatures := "\n   1.1 VkPhysicalDeviceFeatures2_.features.dualSrcBlend",
             debugAborted := true, loggedInfo := false,
             returned := { code := ResultCode.RuntimeError } } ∧
    ({ missingFeatures := "\n   1.1 VkPhysicalDeviceFeatures2_.features.dualSrcBlend",
       debugAborted := true, loggedInfo := false,
       returned := { code := ResultCode.RuntimeError } } : CheckFeaturesOutcome).debugAborted
        = true ∧
    ({ missingFeatures := "\n   1.1 VkPhysicalDeviceFeatures2_.features.dualSrcBlend",
       debugAborted := true, loggedInfo := false,
       returned := { code := ResultCode.RuntimeError } } : CheckFeaturesOutcome).returned
        = { code := ResultCode.RuntimeError } :=
  ⟨by decide,
    ((checkSelectedFeatures_platform_policy false vfReqDual vfBase _ (by decide)
      (by decide)).1 rfl).1,
    ((checkSelectedFeatures_platform_policy false vfReqDual vfBase _ (by decide)
      (by decide)).1 rfl).2.2⟩

/-- The report shape the spec's words describe: entries rendered exactly
as `"<tag> <block-kind>.<field>"` and joined by bare newlines. -/
def specNewlineJoinedReport (req avail : VulkanFeatures) : String :=
  String.intercalate "\n"
    ((missingFields req avail).map fun f =>
      fieldTag f ++ " " ++ fieldStructName f ++ "." ++ fieldFieldName f)

/-- C9 (counterexample to the claim as stated): for the single missing
`dualSrcBlend` feature the code's diagnostic carries a leading newline
plus a three-space indent before the entry, so it differs from the plain
newline-joined rendering the claim describes. -/
theorem checkSelectedFeatures_report_not_plain_newline_joined :
    (checkSelectedFeatures false vfReqDual vfBase).map CheckFeaturesOutcome.missingFeatures
        = some "\n   1.1 VkPhysicalDeviceFeatures2_.features.dualSrcBlend" ∧
    specNewlineJoinedReport vfReqDual vfBase
        = "1.1 VkPhysicalDeviceFeatures2_.features.dualSrcBlend" ∧
    ("\n   1.1 VkPhysicalDeviceFeatures2_.features.dualSrcBlend" : String)
        ≠ "1.1 VkPhysicalDeviceFeatures2_.features.dualSrcBlend" := by
  decide

/-- C9 (amended): the diagnostic string of any non-asserting
`checkSelectedFeatures` call is the concatenation, in check order, of
one `"\n   " ++ tag ++ " " ++ structToken ++ "." ++ fieldName` fragment
per missing checked field (newline plus three-space indent before each
entry, rather than a bare newline join). -/
theorem checkSelectedFeatures_report_rendering (platformApple : Bool)
    (req avail : VulkanFeatures) (o : CheckFeaturesOutcome)
    (ho : checkSelectedFeatures platformApple req avail = some o) :
    o.missingFeatures =
      String.join ((missingFields req avail).map fun f =>
        "\n   " ++ fieldTag f ++ " " ++ fieldStructName f ++ "." ++ fieldFieldName f) := by
  have hmap : ((missingFields req avail).map fun f =>
      "\n   " ++ fieldTag f ++ " " ++ fieldStructName f ++ "." ++ fieldFieldName f) =
      (missingFields req avail).map entryString :=
    List.map_congr_left fun f _ => (entryString_decompose f).symm
  rw [hmap, ← missingFeaturesList_eq_map]
  rw [checkSelectedFeatures] at ho
  by_cases hv : avail.version_ = req.version_
  · rw [if_pos hv] at ho
    cases hie : (String.join (missingFeaturesList req avail)).isEmpty with
    | true =>
      rw [hie] at ho
      simp only [Bool.not_true, Bool.false_eq_true, if_false] at ho
      obtain rfl := Option.some.inj ho
      rfl
    | false =>
      rw [hie] at ho
      simp only [Bool.not_false, if_true] at ho
      cases platformApple with
      | false =>
        obtain rfl := Option.some.inj (by simpa using ho)
        rfl
      | true =>
        obtain rfl := Option.some.inj (by simpa using ho)
        rfl
  · rw [if_neg hv] at ho
    exact absurd ho (by simp)

/-- Witness for C9's amended theorem at the concrete missing
`dualSrcBlend` negotiation. -/
theorem checkSelectedFeatures_report_rendering_witness :
    checkSelectedFeatures false vfReqDual vfBase =
      some { missingFeatures := "\n   1.1 VkPhysicalDeviceFeatures2_.features.dualSrcBlend",
             debugAborted := true, loggedInfo := false,
             returned := { code := ResultCode.RuntimeError } } ∧
    ({ missingFeatures := "\n   1.1 VkPhysicalDeviceFeatures2_.features.dualSrcBlend",
       debugAborted := true, loggedInfo := false,
       returned := { code := ResultCode.RuntimeError } } : CheckFeaturesOutcome).missingFeatures
      = String.join ((missingFields vfReqDual vfBase).map fun f =>
          "\n   " ++ fieldTag f ++ " " ++ fieldStructName f ++ "." ++ fieldFieldName f) :=
  ⟨by decide,
    checkSelectedFeatures_report_rendering false vfReqDual vfBase _ (by decide)⟩

/-- `cfgAllOff` with the dual-source-blend toggle enabled (a
configuration toggle the assignment guard does not compare). -/
def cfgDual : VulkanContextConfig :=
  { enableBufferDeviceAddress := false, enableDescriptorIndexing := false,
    enableDualSrcBlend := true, enableShaderInt16 := false,
    enableStorageBuffer16BitAccess := false, enableShaderDrawParameters := false }

/-- An assignment source whose configuration differs from `vfBase` only
in the dual-source-blend toggle and whose `depthBiasClamp` feature is
set. -/
def vfSrcC2 : VulkanFeatures :=
  { VulkanFeatures.construct 0 cfgDual with VkPhysicalDeviceFeatures2_ :=
      { (VulkanFeatures.construct 0 cfgDual).VkPhysicalDeviceFeatures2_ with features :=
          { (VulkanFeatures.construct 0 cfgDual).VkPhysicalDeviceFeatures2_.features with
            depthBiasClamp := true } } }

/-- C2 (counterexample to the claim as stated): `vfBase` and `vfSrcC2`
have equal versions but differ in the `enableDualSrcBlend`
configuration toggle, and the assignment is not a no-op — the guard
compares only the buffer-device-address and descriptor-indexing
toggles, so the copy proceeds and changes the destination. -/
theorem assign_not_noop_on_unguarded_toggle_mismatch :
    vfBase.config_.enableDualSrcBlend ≠ vfSrcC2.config_.enableDualSrcBlend ∧
      vfBase.version_ = vfSrcC2.version_ ∧
      VulkanFeatures.assign vfBase vfSrcC2 ≠ vfBase := by
  decide

/-- C2 (amended): assignment between two `VulkanFeatures` with different
versions, or differing in the `enableBufferDeviceAddress` or
`enableDescriptorIndexing` toggle (the only two configuration toggles
the guard compares), leaves the destination unchanged — and, the
operation being pure, the source is never modified. -/
theorem assign_guard_noop (dst src : VulkanFeatures)
    (h : dst.version_ ≠ src.version_ ∨
      dst.config_.enableBufferDeviceAddress ≠ src.config_.enableBufferDeviceAddress ∨
      dst.config_.enableDescriptorIndexing ≠ src.config_.enableDescriptorIndexing) :
    VulkanFeatures.assign dst src = dst := by
  rw [VulkanFeatures.assign, if_pos]
  rcases h with h | h | h
  · exact Or.inl h
  · exact Or.inr fun hc => h hc.1
  · exact Or.inr fun hc => h hc.2

/-- Witness for C2's amended theorem at a concrete version mismatch
(1.1-era value 0 versus `VK_API_VERSION_1_2`). -/
theorem assign_guard_noop_witness :
    vfBase.version_ ≠ vfV12.version_ ∧ VulkanFeatures.assign vfBase vfV12 = vfBase :=
  ⟨by decide, assign_guard_noop vfBase vfV12 (Or.inl (by decide))⟩

/-- C6 (counterexample to the claim as stated): the executed reset/link
sequence of `assembleFeatureChain` links the sampler-ycbcr block before
it clears the buffer-device-address block's link, so not every block's
next-link is cleared before any block is linked. -/
theorem assembleOps_links_before_all_resets :
    AOp.reset Block.bufferDeviceAddress ∈ assembleOps 0 cfgAllOff [] ∧
      AOp.link Block.samplerYcbcr ∈ assembleOps 0 cfgAllOff [] ∧
      (assembleOps 0 cfgAllOff []).indexOf (AOp.link Block.samplerYcbcr) <
        (assembleOps 0 cfgAllOff []).indexOf (AOp.reset Block.bufferDeviceAddress) := by
  decide

/-- C6 (amended): `assembleFeatureChain` clears each block's next-link
before that block itself is ever linked (the clears are interleaved with
the links rather than all performed first), so after reassembly every
block reachable from the chain root satisfies its gating condition — no
reachable block retains a link into a block outside the current
configuration. -/
theorem assembleFeatureChain_reset_discipline (vf : VulkanFeatures)
    (config : VulkanContextConfig) :
    (∀ b : Block, AOp.link b ∈ assembleOps vf.version_ config vf.extensions_ →
      (assembleOps vf.version_ config vf.extensions_).indexOf (AOp.reset b) <
        (assembleOps vf.version_ config vf.extensions_).indexOf (AOp.link b)) ∧
    (∀ b : Block, b ∈ chainBlocks (assembleFeatureChain vf config) →
      blockGate b vf.version_ config vf.extensions_ = true) := by
  constructor
  · by_cases h1 : vf.version_ ≥ vkApiVersion12 <;>
    cases h2 : config.enableBufferDeviceAddress <;>
    cases h3 : config.enableDescriptorIndexing <;>
    cases h4 : hasExtension vf.extensions_ extIndexTypeUint8Name <;>
    cases h5 : hasExtension vf.extensions_ extSynchronization2Name <;>
    cases h6 : hasExtension vf.extensions_ extTimelineSemaphoreName <;>
      simp only [assembleOps, h1, h2, h3, h4, h5, h6, if_true, if_false, ite_true,
        ite_false, Bool.false_eq_true, List.append_assoc, List.cons_append,
        List.nil_append, List.append_nil] <;>
      decide
  · intro b hb
    rw [assembleFeatureChain_eq_setChain, chainBlocks_setChain_gated] at hb
    exact (mem_gatedChain b vf.version_ config vf.extensions_).1 hb

/-- Witness for C6's amended theorem at the concrete default
construction. -/
theorem assembleFeatureChain_reset_discipline_witness :
    (assembleOps vfBase.version_ cfgAllOff vfBase.extensions_).indexOf
        (AOp.reset Block.samplerYcbcr) <
      (assembleOps vfBase.version_ cfgAllOff vfBase.extensions_).indexOf
        (AOp.link Block.samplerYcbcr) ∧
    blockGate Block.storage16Bit vfBase.version_ cfgAllOff vfBase.extensions_ = true :=
  ⟨(assembleFeatureChain_reset_discipline vfBase cfgAllOff).1 Block.samplerYcbcr (by decide),
    (assembleFeatureChain_reset_discipline vfBase cfgAllOff).2 Block.storage16Bit
      (by decide)⟩
